import Mathlib

set_option autoImplicit false

/-!
A shallow embedding of the workflow execution engine of the Agentfy
repository: `ActionModule` in src/core/action/module.py together with
the data model it uses from src/common/models/workflows.py.

Python values that can appear as step parameters, step outputs and
error details are modelled by the inductive type `Value`.  The pydantic
model classes are modelled as Lean structures carrying the fields the
classes declare and the engine touches; wall-clock timestamps and the
placeholder metrics objects are not modelled (no claim mentions them
and the engine only stores clock readings or constants there).  The
dynamic capability dispatch performed by `ActionModule._execute_step`
(importlib import, function lookup and the actual call,
module.py:334-357) is modelled by an oracle of type `Invoker` supplied
as an argument.

Three behaviours of pydantic models shape the embedding and are
relied on below: a model constructor silently drops keyword arguments
the class does not declare (default extra handling); reading an
attribute the class does not declare raises `AttributeError`; and a
constructor validates its arguments — a value outside a declared
`Literal` or a missing required field raises `ValidationError`.  The
last behaviour dominates `execute_workflow`: the RUNNING progress
events it tries to emit violate the model of `ExecutionResult` itself
(workflows.py:184 admits no "RUNNING" status and `metrics` is a
required field the engine does not pass), so every run with a
non-empty step list aborts at its first iteration, before the Binding
Resolver or the Capability Invoker is ever consulted.
-/

/-- A Python value as it flows through the engine: literal parameter
values, step outputs and error details.  `Value.none` is the Python
`None`.  Floats are not modelled; no claim involves them. -/
inductive Value where
  | none
  | str (s : String)
  | int (n : Int)
  | bool (b : Bool)
  | list (elems : List Value)
  | dict (entries : List (String × Value))

/-- Python truthiness of a `Value` (`bool(v)`): `None`, the empty
string, zero, `False` and empty containers are falsy.  The engine uses
it in the tests `not info["value"]` (module.py:281) and
`info["value"]` (module.py:284). -/
def Value.isTruthy : Value → Bool
  | Value.none => false
  | Value.str s => !s.isEmpty
  | Value.int n => n != 0
  | Value.bool b => b
  | Value.list es => !es.isEmpty
  | Value.dict es => !es.isEmpty

/-- The string `str(type(v))` that Python produces for a value,
compared against declared type tags at module.py:295.  Python renders
these as `<class ...>` with single quotes around the name; the quotes
are dropped here, a fixed injective renaming of the six possible
results. -/
def Value.pyTypeStr : Value → String
  | Value.none => "<class NoneType>"
  | Value.str _ => "<class str>"
  | Value.int _ => "<class int>"
  | Value.bool _ => "<class bool>"
  | Value.list _ => "<class list>"
  | Value.dict _ => "<class dict>"

/-- `isinstance(v, list)` (module.py:299). -/
def Value.isList : Value → Bool
  | Value.list _ => true
  | _ => false

/-- `isinstance(v, dict)` (module.py:303). -/
def Value.isDict : Value → Bool
  | Value.dict _ => true
  | _ => false

/-- The test `v in [None, ""]` used by the argument filter at
module.py:350.  Python membership tests with equality; among the
embedded values only `None` itself equals `None` and only the empty
string equals the empty string literal. -/
def droppedArg : Value → Bool
  | Value.none => true
  | Value.str s => s.isEmpty
  | _ => false

/-- The per-parameter metadata dictionary stored under
`WorkflowStep.parameters[name]`.  The engine reads exactly the keys
`"type"` (via `info.get("type")`, an absent key giving `None`,
modelled as `Option.none`), `"value"` and `"is_required"`
(module.py:281-308). -/
structure ParamInfo where
  type : Option String := Option.none
  value : Value := Value.none
  is_required : Bool := false

/-- `WorkflowStep` (workflows.py:75-85).  The declared fields
`conditional_execution`, `retry_policy`, `on_success`, `on_failure`
and `timeout` are never read by the engine and are omitted.  The class
declares NO `return_type` field, although
`ReasoningModule._convert_to_workflow_definition`
(core/reasoning/module.py:344) passes a `return_type=` keyword when
constructing steps: pydantic drops the unknown keyword, so the
attribute access `step.return_type` at module.py:166 raises
`AttributeError` on every `WorkflowStep`. -/
structure WorkflowStep where
  step_id : String
  agent_id : String
  function_id : String
  description : String := ""
  parameters : Option (List (String × ParamInfo)) := Option.none

/-- `WorkflowDefinition` (workflows.py:101-108); `name`,
`description`, the timestamps and `output_format` are never read by
the engine and are omitted. -/
structure WorkflowDefinition where
  workflow_id : String
  steps : List WorkflowStep

/-- `MissingParameter` (workflows.py:29-36). -/
structure MissingParameter where
  name : String
  type : String
  description : String
  required : Bool
  function_id : String
  step_id : String
  suggestions : Option (List Value) := Option.none

/-- The pydantic `p.dict()` rendering of a `MissingParameter`, used
for the error details at module.py:82. -/
def MissingParameter.asDict (p : MissingParameter) : Value :=
  Value.dict
    [("name", Value.str p.name), ("type", Value.str p.type),
     ("description", Value.str p.description),
     ("required", Value.bool p.required),
     ("function_id", Value.str p.function_id),
     ("step_id", Value.str p.step_id),
     ("suggestions",
       match p.suggestions with
       | Option.none => Value.none
       | some vs => Value.list vs)]

/-- `ParameterValidationResult` (workflows.py:122-126);
`recommended_parameters` and `parameter_conflicts` are never read by
the engine and are omitted.  `missing_required_parameters` defaults to
`None`, not to an empty list. -/
structure ParameterValidationResult where
  is_valid : Bool
  missing_required_parameters : Option (List MissingParameter) := Option.none

/-- `ExecutionError` (workflows.py:149-155); the wall-clock
`timestamp` is not modelled. -/
structure ExecutionError where
  error_code : String
  message : String
  step_id : Option String := Option.none
  recoverable : Bool := false
  details : Option Value := Option.none

/-- `StepResult` (workflows.py:157-164); `start_time`, `end_time` and
the placeholder `metrics` are not modelled. -/
structure StepResult where
  step_id : String
  status : String
  output : Option Value := Option.none
  error : Option ExecutionError := Option.none

/-- `ExecutionMetrics` (workflows.py:166-171).  `resource_utilization`
is a mapping to floats; floats are not modelled and the engine only
ever passes the empty mapping for it, so that field is omitted.  The
only construction of this object the engine can actually reach — the
pre-flight event metrics of module.py:84-90 — passes all-zero
constants; wall-clock derived values elsewhere (dead code, see
`execute_workflow`) are modelled as 0. -/
structure ExecutionMetrics where
  total_duration : Int
  step_durations : List (String × Int)
  api_calls : Int
  data_processed : Int

/-- `ExecutionResult` (workflows.py:182-190); `start_time` and
`end_time` are not modelled.  `status` is declared
`Literal["COMPLETED", "FAILED", "PAUSED", "CANCELLED"]` and `metrics`
is a required field with no default; pydantic enforces both at
construction, which `mkExecutionResult` below models — the engine
never obtains one of these values except through it. -/
structure ExecutionResult where
  workflow_id : String
  status : String
  step_results : Option (List (String × StepResult)) := Option.none
  outputs : Option Value := Option.none
  errors : Option (List ExecutionError) := Option.none
  metrics : ExecutionMetrics

/-- The status values admitted by the `Literal` type of
`ExecutionResult.status` (workflows.py:184).  "RUNNING" is not among
them. -/
def executionResultStatuses : List String :=
  ["COMPLETED", "FAILED", "PAUSED", "CANCELLED"]

/-- The message of the pydantic `ValidationError` raised when an
`ExecutionResult` is constructed with a status outside the `Literal`
or without the required `metrics` field.  The text pydantic renders is
long and version dependent; a fixed stand-in is used. -/
def executionResultValidationErrorMsg : String :=
  "ValidationError: ExecutionResult status not permitted or metrics missing"

/-- Pydantic construction of an `ExecutionResult`
(workflows.py:182-190): the status must satisfy its `Literal` and the
required `metrics` field must be supplied, otherwise `ValidationError`
is raised.  Keywords the class does not declare — `message=` at
module.py:128 and 179, `output=` at module.py:236 — are silently
dropped and so do not appear among the arguments; in particular the
declared `outputs` field is never supplied by the engine and stays
`None`. -/
def mkExecutionResult (workflow_id : String) (status : String)
    (step_results : Option (List (String × StepResult)))
    (errors : Option (List ExecutionError))
    (metrics : Option ExecutionMetrics) : Except String ExecutionResult :=
  if !(executionResultStatuses.contains status) then
    Except.error executionResultValidationErrorMsg
  else
    match metrics with
    | Option.none => Except.error executionResultValidationErrorMsg
    | some m =>
      Except.ok { workflow_id := workflow_id, status := status,
                  step_results := step_results, outputs := Option.none,
                  errors := errors, metrics := m }

/-- The execution context dictionary built at module.py:94-100.  Of
its keys only `"previous_step_output"` is ever read
(`context.get("previous_step_output")`, module.py:292); the writes to
`"step_results"` (module.py:164, 213) and
`"previous_step_output_type"` (module.py:166, never reached) are never
observed, so only the read key is carried. -/
structure ExecContext where
  previous_step_output : Value := Value.none

/-- The context as initialised before the step loop (module.py:94-100):
`previous_step_output = None`. -/
def initContext : ExecContext := {}

/-- Assignment `d[k] = v` on an insertion-ordered Python dict modelled
as an association list: an existing binding is overwritten in place, a
new key is appended at the end. -/
def setItem {α : Type} : List (String × α) → String → α → List (String × α)
  | [], k, v => [(k, v)]
  | (k0, v0) :: rest, k, v =>
    if k0 == k then (k, v) :: rest else (k0, v0) :: setItem rest k v

/-- The `step_index == 0` branch of
`ActionModule._prepare_step_parameters` (module.py:279-286): iterate
the declared parameters in order; on the first required parameter
whose value is falsy return the empty map at once (module.py:281-283);
otherwise record every required parameter, and only those, under its
literal value (module.py:284-285). -/
def firstStepLoop :
    List (String × ParamInfo) → List (String × Value) → List (String × Value)
  | [], result => result
  | (name, info) :: rest, result =>
    if info.is_required && !info.value.isTruthy then []
    else if info.is_required && info.value.isTruthy then
      firstStepLoop rest (setItem result name info.value)
    else firstStepLoop rest result

/-- The `step_index > 0` branch of
`ActionModule._prepare_step_parameters` (module.py:290-308): for each
declared parameter compare its type tag with the previous step output.
A tag that is truthy and either equals `str(type(prev_output))`
(module.py:295), or starts with `"List["` while the previous output is
a list (module.py:299), or starts with `"Dict["` while the previous
output is a dict (module.py:303), binds the previous output and sets
`has_match`; any other parameter falls back to its literal value
(module.py:308). -/
def laterStepLoop (prev : Value) :
    List (String × ParamInfo) → Bool → List (String × Value) →
      Bool × List (String × Value)
  | [], has_match, result => (has_match, result)
  | (name, info) :: rest, has_match, result =>
    match info.type with
    | Option.none => laterStepLoop prev rest has_match (setItem result name info.value)
    | some param_type =>
      if param_type.isEmpty then
        laterStepLoop prev rest has_match (setItem result name info.value)
      else if param_type == prev.pyTypeStr then
        laterStepLoop prev rest true (setItem result name prev)
      else if param_type.startsWith "List[" && prev.isList then
        laterStepLoop prev rest true (setItem result name prev)
      else if param_type.startsWith "Dict[" && prev.isDict then
        laterStepLoop prev rest true (setItem result name prev)
      else laterStepLoop prev rest has_match (setItem result name info.value)

/-- `ActionModule._prepare_step_parameters` (module.py:258-313).  The
method reads nothing from `self` apart from the logger, so it is a
pure function of `(step, context, step_index)`.  `params` is
`step.parameters or` the empty dict (module.py:271); an empty dict
returns the empty map at once (module.py:272-273); at a later step an
iteration that set no match returns the empty map
(module.py:310-311). -/
def prepare_step_parameters (step : WorkflowStep) (context : ExecContext)
    (step_index : Nat) : List (String × Value) :=
  let params := step.parameters.getD []
  if params.isEmpty then []
  else if step_index == 0 then firstStepLoop params []
  else
    let r := laterStepLoop context.previous_step_output params false []
    if !r.1 then [] else r.2

/-- The outcome of the dynamic dispatch performed inside
`ActionModule._execute_step` (module.py:334-357): module import,
function lookup and the call itself, given the agent id, the function
id and the already filtered keyword arguments.  `Except.error` carries
`str(e)` of the exception the Python code raises on that path
(including the `StepExecutionError` raised at module.py:347 and the
re-raise at module.py:362). -/
def Invoker : Type :=
  String → String → List (String × Value) → Except String Value

/-- The argument filter at module.py:350: a dict comprehension keeping
exactly the entries whose value is neither `None` nor the empty
string. -/
def stepArgs (parameters : List (String × Value)) : List (String × Value) :=
  parameters.filter (fun kv => !droppedArg kv.2)

/-- `ActionModule._execute_step` (module.py:315-366): filter the
arguments, perform the dynamic call through the `Invoker` oracle, and
wrap any raised exception in
`StepExecutionError("Failed to execute step: " + str(e))`
(module.py:364-366). -/
def execute_step (invoke : Invoker) (step : WorkflowStep)
    (parameters : List (String × Value)) : Except String Value :=
  match invoke step.agent_id step.function_id (stepArgs parameters) with
  | Except.ok r => Except.ok r
  | Except.error e => Except.error ("Failed to execute step: " ++ e)

/-- The message of the `AttributeError` raised at module.py:166 when
the engine reads the undeclared attribute `step.return_type` (the
single quotes Python puts around the two names are dropped). -/
def returnTypeAttrErrorMsg : String :=
  "AttributeError: WorkflowStep object has no attribute return_type"

/-- The body of the per-step `try` block (module.py:131-166), the
computation performed before the `except` handler at module.py:182
takes over.  After a successful capability call the engine builds the
COMPLETED `StepResult` (module.py:148-161) and updates the context
(module.py:164-165), but the next line, module.py:166, reads
`step.return_type`, an attribute `WorkflowStep` does not declare, so
the block always ends in an exception and the success continuation at
module.py:167-180 is unreachable.  The context mutations of lines
164-165 survive in Python but are never read afterwards, because the
loop breaks at module.py:217, so they need not be threaded out of the
error case. -/
def stepTryBody (invoke : Invoker) (step : WorkflowStep) (ctx : ExecContext)
    (step_index : Nat) : Except String (StepResult × ExecContext) :=
  let step_parameters := prepare_step_parameters step ctx step_index
  match execute_step invoke step step_parameters with
  | Except.error e => Except.error e
  | Except.ok step_result =>
    let full_step_result : StepResult :=
      { step_id := step.step_id, status := "COMPLETED",
        output := some step_result, error := Option.none }
    let ctx : ExecContext := { ctx with previous_step_output := step_result }
    let _ := full_step_result
    let _ := ctx
    Except.error returnTypeAttrErrorMsg

/-- The step loop of `ActionModule.execute_workflow`
(module.py:119-217).  Every iteration begins by constructing the
RUNNING progress event (module.py:124-129); that construction violates
the model of the event itself — "RUNNING" is outside the status
Literal of workflows.py:184 and the required `metrics` field is not
passed — so pydantic raises `ValidationError`.  The raise happens
before the per-step `try` at module.py:131, so it escapes the loop:
on a non-empty list the loop always aborts on its first iteration
without consulting the Binding Resolver or the Capability Invoker.
The rest of the body is kept for fidelity but is unreachable from the
entry state: the `try` body (`stepTryBody`), the per-step success
event of module.py:174-180 (whose construction, inside the `try`,
would itself be rejected and be converted by the handler at
module.py:182-217 into a FAILED step result and a break), and the
handler for a failing `try` body.  `Except.error` carries the events
yielded so far and the escaping exception message; `Except.ok` the
normal loop exit with (step_results, errors, events). -/
def stepLoop (invoke : Invoker) (workflow_id : String) :
    List (Nat × WorkflowStep) → ExecContext → List (String × StepResult) →
      List ExecutionError → List ExecutionResult →
      Except (List ExecutionResult × String)
        (List (String × StepResult) × List ExecutionError × List ExecutionResult)
  | [], _, step_results, errors, events => Except.ok (step_results, errors, events)
  | (step_index, step) :: rest, ctx, step_results, errors, events =>
    match mkExecutionResult workflow_id "RUNNING" Option.none Option.none
        Option.none with
    | Except.error e => Except.error (events, e)
    | Except.ok running_event =>
      let events := events ++ [running_event]
      match stepTryBody invoke step ctx step_index with
      | Except.ok (full_step_result, ctx2) =>
        let step_results := setItem step_results step.step_id full_step_result
        match mkExecutionResult workflow_id "RUNNING" (some step_results)
            Option.none Option.none with
        | Except.ok success_event =>
          stepLoop invoke workflow_id rest ctx2 step_results errors
            (events ++ [success_event])
        | Except.error e =>
          let error : ExecutionError :=
            { error_code := "STEP_EXECUTION_ERROR",
              message := "Error executing " ++ step.step_id ++ ": " ++ e,
              step_id := some step.step_id, recoverable := false,
              details := some (Value.dict [("exception", Value.str e)]) }
          Except.ok (setItem step_results step.step_id
            { step_id := step.step_id, status := "FAILED",
              output := Option.none, error := some error },
            errors ++ [error], events)
      | Except.error e =>
        let error : ExecutionError :=
          { error_code := "STEP_EXECUTION_ERROR",
            message := "Error executing " ++ step.step_id ++ ": " ++ e,
            step_id := some step.step_id, recoverable := false,
            details := some (Value.dict [("exception", Value.str e)]) }
        Except.ok (setItem step_results step.step_id
          { step_id := step.step_id, status := "FAILED",
            output := Option.none, error := some error },
          errors ++ [error], events)

/-- `enumerate` starting at `n`. -/
def enumFromN {α : Type} (n : Nat) : List α → List (Nat × α)
  | [] => []
  | a :: as => (n, a) :: enumFromN (n + 1) as

/-- `enumerate(workflow.steps)` (module.py:119). -/
def enumerate {α : Type} (l : List α) : List (Nat × α) := enumFromN 0 l

/-- Construction of the `details` payload of the pre-flight
MISSING_PARAMETERS error (module.py:82).  When
`missing_required_parameters` is `None`, its declared default, the
list comprehension iterates over `None` and raises `TypeError`. -/
def preflightDetails :
    Option (List MissingParameter) → Except String Value
  | Option.none => Except.error "TypeError: NoneType object is not iterable"
  | some ps =>
    Except.ok (Value.dict
      [("missing_parameters", Value.list (ps.map MissingParameter.asDict))])

/-- The all-zero metrics object passed with the pre-flight FAILED
event (module.py:84-90); `resource_utilization`, always the empty
mapping, is not modelled. -/
def preflightMetrics : ExecutionMetrics :=
  { total_duration := 0, step_durations := [], api_calls := 0,
    data_processed := 0 }

/-- The MISSING_PARAMETERS error carried by the pre-flight FAILED
event (module.py:77-83). -/
def preflightError (details : Value) : ExecutionError :=
  { error_code := "MISSING_PARAMETERS",
    message := "Cannot execute workflow due to missing parameters",
    recoverable := true, details := some details }

/-- The pre-flight FAILED event (module.py:70-91): empty
`step_results`, a single MISSING_PARAMETERS error, all-zero metrics.
Its construction passes pydantic validation — the status "FAILED" is
inside the Literal and metrics is supplied — which `execute_workflow`
checks by going through `mkExecutionResult`. -/
def preflightEvent (workflow_id : String) (details : Value) : ExecutionResult :=
  { workflow_id := workflow_id, status := "FAILED",
    step_results := some [],
    errors := some [preflightError details],
    metrics := preflightMetrics }

/-- `ActionModule.execute_workflow` (module.py:47-256), modelled as
the list of `ExecutionResult` events the async generator yields,
paired with `some msg` when the generator instead escapes with
`WorkflowExecutionError("Failed to execute workflow: " + str(e))`
through the outer handler at module.py:254-256; the events yielded
before the escape are still delivered to the consumer.

Three facts of the source shape this definition.  First, the
pre-flight `is_valid` check (module.py:68-91) only yields the FAILED
result: the `if` block contains no `return`, so control falls through
into the step loop regardless.  Second, the RUNNING progress events
the loop tries to yield are rejected by the model of
`ExecutionResult` itself (status Literal, required metrics), so with
non-empty steps the run always escapes at the first iteration.
Third, with empty steps the engine evaluates
`list(step_results.values())[-1]` (module.py:227) on an empty dict,
which raises `IndexError`.  Consequently the final event construction
at module.py:230-245 is unreachable; it is kept for fidelity, with
the wall-clock derived metric values modelled as 0. -/
def execute_workflow (invoke : Invoker) (workflow : WorkflowDefinition)
    (param_validation : ParameterValidationResult) :
    List ExecutionResult × Option String :=
  let preflight : Except String (List ExecutionResult) :=
    if !param_validation.is_valid then
      match preflightDetails param_validation.missing_required_parameters with
      | Except.error e => Except.error e
      | Except.ok details =>
        match mkExecutionResult workflow.workflow_id "FAILED" (some [])
            (some [preflightError details]) (some preflightMetrics) with
        | Except.error e => Except.error e
        | Except.ok ev => Except.ok [ev]
    else Except.ok []
  match preflight with
  | Except.error e => ([], some ("Failed to execute workflow: " ++ e))
  | Except.ok events =>
    match stepLoop invoke workflow.workflow_id (enumerate workflow.steps)
        initContext [] [] events with
    | Except.error (events2, e) =>
      (events2, some ("Failed to execute workflow: " ++ e))
    | Except.ok (step_results, errors, events2) =>
      let workflow_status := if errors.isEmpty then "COMPLETED" else "FAILED"
      match step_results.getLast? with
      | Option.none =>
        (events2, some ("Failed to execute workflow: "
          ++ "list index out of range"))
      | some _ =>
        match mkExecutionResult workflow.workflow_id workflow_status
            (some step_results) (some errors)
            (some { total_duration := 0, step_durations := [],
                    api_calls := 0, data_processed := 0 }) with
        | Except.error e =>
          (events2, some ("Failed to execute workflow: " ++ e))
        | Except.ok final_event => (events2 ++ [final_event], Option.none)

/-- Spec-side restatement (for comparison with the code) of the match
test of the later-step binding rule: the declared type tag exactly
matches the runtime type of the previous output, or is a parameterized
sequence tag while the previous output is a sequence, or is a
parameterized mapping tag while the previous output is a mapping; a
missing or empty tag never matches. -/
def specMatchesPrev (prev : Value) (info : ParamInfo) : Bool :=
  match info.type with
  | Option.none => false
  | some t =>
    !t.isEmpty &&
      (t == prev.pyTypeStr
        || (t.startsWith "List[" && prev.isList)
        || (t.startsWith "Dict[" && prev.isDict))

/-- Spec-side restatement of the later-step binding rule as the claims
word it: every matching parameter is bound to the previous output
as-is, non-matching parameters fall back to their literal value, and
if no parameter matches the resolution is the empty map. -/
def specLaterStepResolution (parameters : Option (List (String × ParamInfo)))
    (prev : Value) : List (String × Value) :=
  let params := parameters.getD []
  if params.any (fun p => specMatchesPrev prev p.2) then
    params.map (fun p => (p.1, if specMatchesPrev prev p.2 then prev else p.2.value))
  else []

/-- Spec-side restatement of the first-step binding rule as amended:
if any required parameter has a falsy literal value the resolution is
the empty map; otherwise the argument map holds exactly the required
parameters under their literal values, in declaration order (optional
parameters are not copied). -/
def specFirstStepResolution
    (parameters : Option (List (String × ParamInfo))) : List (String × Value) :=
  let params := parameters.getD []
  if params.any (fun p => p.2.is_required && !p.2.value.isTruthy) then []
  else params.filterMap
    (fun p => if p.2.is_required then some (p.1, p.2.value) else Option.none)

/-- An invoker whose every call succeeds with a fixed string. -/
def invokeOk : Invoker := fun _ _ _ => Except.ok (Value.str "ok")

/-- An invoker whose every call raises, with message "boom". -/
def invokeBoom : Invoker := fun _ _ _ => Except.error "boom"

/-- An invoker whose every call raises, with the marker message
"probe"; the marker can reach a run result only through an actual
invocation. -/
def invokeProbe : Invoker := fun _ _ _ => Except.error "probe"

/-- A validation result with `is_valid` true. -/
def pvValid : ParameterValidationResult := { is_valid := true }

/-- A validation result with `is_valid` false and an empty (but
present) missing-parameter list. -/
def pvInvalidEmptyMissing : ParameterValidationResult :=
  { is_valid := false, missing_required_parameters := some [] }

/-- A validation result with `is_valid` false and
`missing_required_parameters` left at its declared default `None`. -/
def pvMissingNone : ParameterValidationResult := { is_valid := false }

/-- A step with a single required parameter carrying a literal
value. -/
def stepReqA : WorkflowStep :=
  { step_id := "step1", agent_id := "x_crawler", function_id := "search",
    parameters := some [("query",
      { type := some "str", value := Value.str "cats", is_required := true })] }

/-- A one-step workflow around `stepReqA`. -/
def wfA : WorkflowDefinition := { workflow_id := "wf-A", steps := [stepReqA] }

/-- A second step with a distinct id, for multi-step fixtures. -/
def stepReqB : WorkflowStep :=
  { step_id := "step2", agent_id := "x_analysis", function_id := "clean",
    parameters := some [("data",
      { type := some "List[record]", value := Value.str "", is_required := false })] }

/-- A two-step workflow with distinct step ids. -/
def wfB : WorkflowDefinition :=
  { workflow_id := "wf-B", steps := [stepReqA, stepReqB] }

/-- Step 1 of the end-to-end scenario of claim C2:
search(keyword="cats"). -/
def c2Step1 : WorkflowStep :=
  { step_id := "step1", agent_id := "x_crawler", function_id := "search",
    parameters := some [("keyword",
      { type := some "str", value := Value.str "cats", is_required := true })] }

/-- Step 2 of the end-to-end scenario of claim C2:
summarize(records: sequence of record), no literal value. -/
def c2Step2 : WorkflowStep :=
  { step_id := "step2", agent_id := "x_analysis", function_id := "summarize",
    parameters := some [("records",
      { type := some "List[record]", value := Value.str "", is_required := false })] }

/-- The 3-element sequence of records returned by step 1 of the C2
scenario. -/
def c2Records : Value :=
  Value.list [Value.dict [("id", Value.int 1)],
              Value.dict [("id", Value.int 2)],
              Value.dict [("id", Value.int 3)]]

/-- The capability oracle of the C2 scenario: search returns the three
records, everything else succeeds with a summary string. -/
def c2Invoke : Invoker := fun _ function_id _ =>
  if function_id == "search" then Except.ok c2Records
  else Except.ok (Value.str "summary")

/-- The two-step workflow of the C2 scenario. -/
def c2Wf : WorkflowDefinition :=
  { workflow_id := "wf-C2", steps := [c2Step1, c2Step2] }

/-- A step whose single parameter is optional and carries the literal
value "hello" (the literal-first-step example with the parameter not
marked required). -/
def stepOptHello : WorkflowStep :=
  { step_id := "s-opt", agent_id := "a", function_id := "f",
    parameters := some [("param",
      { type := some "string", value := Value.str "hello", is_required := false })] }

/-- A step whose single parameter is required and carries the literal
value "hello". -/
def stepReqHello : WorkflowStep :=
  { step_id := "s-req", agent_id := "a", function_id := "f",
    parameters := some [("param",
      { type := some "string", value := Value.str "hello", is_required := true })] }

/-- A step declaring a parameter of a parameterized sequence type with
no literal value (type-tag binding example). -/
def stepSeqBind : WorkflowStep :=
  { step_id := "s-seq", agent_id := "a", function_id := "g",
    parameters := some [("records",
      { type := some "List[string]", value := Value.str "", is_required := false })] }

/-- A context whose previous step output is the two-element sequence
of the type-tag binding example. -/
def ctxSeqAB : ExecContext :=
  { previous_step_output := Value.list [Value.str "a", Value.str "b"] }

/-- A one-step workflow around `stepOptHello`: its binding resolution
at step index 0 is the empty map. -/
def wfOpt : WorkflowDefinition :=
  { workflow_id := "wf-opt", steps := [stepOptHello] }

/-- Any non-empty remaining step list aborts the loop at once: the
RUNNING event construction is rejected by pydantic before the step
body runs, independently of the invoker, the step, the context and
the accumulated state; the events yielded so far are what the
consumer keeps. -/
theorem stepLoop_aborts (invoke : Invoker) (wfid : String) (i : Nat)
    (step : WorkflowStep) (rest : List (Nat × WorkflowStep))
    (ctx : ExecContext) (srs : List (String × StepResult))
    (errs : List ExecutionError) (evs : List ExecutionResult) :
    stepLoop invoke wfid ((i, step) :: rest) ctx srs errs evs =
      Except.error (evs, executionResultValidationErrorMsg) := rfl

/-- Every run with `is_valid` true over a non-empty step list yields
no events and escapes as `WorkflowExecutionError` wrapping the
pydantic `ValidationError` of its first RUNNING progress event. -/
theorem execute_workflow_valid_cons_aborts (invoke : Invoker)
    (wf : WorkflowDefinition) (pv : ParameterValidationResult)
    (s : WorkflowStep) (rest : List WorkflowStep)
    (hv : pv.is_valid = true) (hs : wf.steps = s :: rest) :
    execute_workflow invoke wf pv =
      ([], some ("Failed to execute workflow: "
        ++ executionResultValidationErrorMsg)) := by
  simp only [execute_workflow, hv, hs, Bool.not_true, Bool.false_eq_true, if_false,
    enumerate, enumFromN, stepLoop_aborts]

/-- Every run with `is_valid` false, a present missing-parameter list
and a non-empty step list yields exactly the pre-flight FAILED event
and then escapes the same way: the last emitted event is the
pre-flight event, never a final summary. -/
theorem execute_workflow_invalid_cons_aborts (invoke : Invoker)
    (wf : WorkflowDefinition) (pv : ParameterValidationResult)
    (ms : List MissingParameter) (s : WorkflowStep) (rest : List WorkflowStep)
    (hv : pv.is_valid = false)
    (hm : pv.missing_required_parameters = some ms)
    (hs : wf.steps = s :: rest) :
    execute_workflow invoke wf pv =
      ([preflightEvent wf.workflow_id
          (Value.dict [("missing_parameters",
            Value.list (ms.map MissingParameter.asDict))])],
       some ("Failed to execute workflow: "
        ++ executionResultValidationErrorMsg)) := by
  simp only [execute_workflow, hv, hm, hs, Bool.not_false, if_true, preflightDetails,
    enumerate, enumFromN, stepLoop_aborts]
  rfl

/-- Dict assignment of a fresh key appends at the end. -/
theorem setItem_eq_append {α : Type} (acc : List (String × α)) (k : String) (v : α)
    (h : ∀ q ∈ acc, q.1 ≠ k) :
    setItem acc k v = acc ++ [(k, v)] := by
  induction acc with
  | nil => rfl
  | cons q rest ih =>
    obtain ⟨k0, v0⟩ := q
    have hk : k0 ≠ k := h (k0, v0) (List.mem_cons_self _ _)
    simp [setItem, hk, ih (fun q hq => h q (List.mem_cons_of_mem _ hq))]

/-- Every entry of a dict after an assignment was already present or
carries the assigned key. -/
theorem mem_setItem {α : Type} (l : List (String × α)) (k : String) (v : α)
    (k0 : String) (v0 : α) (h : (k0, v0) ∈ setItem l k v) :
    (k0, v0) ∈ l ∨ k0 = k := by
  induction l with
  | nil =>
    simp only [setItem, List.mem_singleton, Prod.mk.injEq] at h
    exact Or.inr h.1
  | cons q rest ih =>
    obtain ⟨k1, v1⟩ := q
    by_cases hk : k1 = k
    · subst hk
      simp [setItem] at h
      rcases h with ⟨rfl, rfl⟩ | h1
      · exact Or.inr rfl
      · exact Or.inl (List.mem_cons_of_mem _ h1)
    · simp [setItem, hk] at h
      rcases h with ⟨rfl, rfl⟩ | h1
      · exact Or.inl (List.mem_cons_self _ _)
      · rcases ih h1 with h2 | h2
        · exact Or.inl (List.mem_cons_of_mem _ h2)
        · exact Or.inr h2

/-- Closed form of the first-step resolver loop under distinct
parameter names (Python dict keys are distinct by construction): if
some required parameter has a falsy value the loop returns the empty
map, otherwise it extends the accumulator with exactly the required
parameters in order. -/
theorem firstStepLoop_eq (l : List (String × ParamInfo))
    (acc : List (String × Value))
    (hnd : (l.map Prod.fst).Nodup)
    (hdisj : ∀ p ∈ l, ∀ q ∈ acc, p.1 ≠ q.1) :
    firstStepLoop l acc =
      if l.any (fun p => p.2.is_required && !p.2.value.isTruthy) then []
      else acc ++ l.filterMap
        (fun p => if p.2.is_required then some (p.1, p.2.value) else Option.none) := by
  induction l generalizing acc with
  | nil => simp [firstStepLoop]
  | cons p rest ih =>
    obtain ⟨name, info⟩ := p
    have hnd2 : (rest.map Prod.fst).Nodup := (List.nodup_cons.mp hnd).2
    have hname : name ∉ rest.map Prod.fst := (List.nodup_cons.mp hnd).1
    cases hreq : info.is_required with
    | false =>
      have hdisj2 : ∀ p ∈ rest, ∀ q ∈ acc, p.1 ≠ q.1 :=
        fun p hp => hdisj p (List.mem_cons_of_mem _ hp)
      have hL : firstStepLoop ((name, info) :: rest) acc = firstStepLoop rest acc := by
        simp [firstStepLoop, hreq]
      rw [hL, ih acc hnd2 hdisj2]
      simp only [List.any_cons, List.filterMap_cons, hreq, Bool.false_and,
        Bool.false_eq_true, if_false, Bool.false_or]
    | true =>
      cases htr : info.value.isTruthy with
      | false => simp [firstStepLoop, hreq, htr]
      | true =>
        have hset : setItem acc name info.value = acc ++ [(name, info.value)] :=
          setItem_eq_append acc name info.value
            (fun q hq => (hdisj (name, info) (List.mem_cons_self _ _) q hq).symm)
        have hdisj2 : ∀ p ∈ rest, ∀ q ∈ acc ++ [(name, info.value)], p.1 ≠ q.1 := by
          intro p hp q hq
          rcases List.mem_append.mp hq with hq1 | hq1
          · exact hdisj p (List.mem_cons_of_mem _ hp) q hq1
          · have : q.1 = name := congrArg Prod.fst (List.mem_singleton.mp hq1)
            rw [this]
            intro hcontra
            exact hname (hcontra ▸ List.mem_map_of_mem Prod.fst hp)
        simp only [firstStepLoop, hreq, htr, Bool.not_true, Bool.and_false,
          Bool.false_eq_true, if_false, Bool.and_true, if_true, hset,
          ih (acc ++ [(name, info.value)]) hnd2 hdisj2]
        by_cases hany : rest.any (fun p => p.2.is_required && !p.2.value.isTruthy)
        · simp [hany, hreq, htr]
        · simp [hany, hreq, htr, List.filterMap_cons]

/-- Closed form of the later-step resolver loop under distinct
parameter names: the returned flag records whether the accumulated
flag or any parameter matches the previous output, and the returned
map extends the accumulator with every parameter in order — matching
parameters bound to the previous output, the rest to their literal
values. -/
theorem laterStepLoop_eq (prev : Value) (l : List (String × ParamInfo)) (hm : Bool)
    (acc : List (String × Value))
    (hnd : (l.map Prod.fst).Nodup)
    (hdisj : ∀ p ∈ l, ∀ q ∈ acc, p.1 ≠ q.1) :
    laterStepLoop prev l hm acc =
      (hm || l.any (fun p => specMatchesPrev prev p.2),
       acc ++ l.map (fun p => (p.1, if specMatchesPrev prev p.2 then prev else p.2.value))) := by
  induction l generalizing hm acc with
  | nil => simp [laterStepLoop]
  | cons p rest ih =>
    obtain ⟨name, info⟩ := p
    have hnd2 : (rest.map Prod.fst).Nodup := (List.nodup_cons.mp hnd).2
    have hname : name ∉ rest.map Prod.fst := (List.nodup_cons.mp hnd).1
    have hdisj2 : ∀ (x : Value), ∀ p ∈ rest, ∀ q ∈ acc ++ [(name, x)], p.1 ≠ q.1 := by
      intro x p hp q hq
      rcases List.mem_append.mp hq with hq1 | hq1
      · exact hdisj p (List.mem_cons_of_mem _ hp) q hq1
      · have hq2 : q.1 = name := congrArg Prod.fst (List.mem_singleton.mp hq1)
        rw [hq2]
        intro hcontra
        exact hname (hcontra ▸ List.mem_map_of_mem Prod.fst hp)
    have hset : ∀ (x : Value), setItem acc name x = acc ++ [(name, x)] :=
      fun x => setItem_eq_append acc name x
        (fun q hq => (hdisj (name, info) (List.mem_cons_self _ _) q hq).symm)
    cases hty : info.type with
    | none =>
      have hmm : specMatchesPrev prev info = false := by
        simp [specMatchesPrev, hty]
      simp only [laterStepLoop, hty, hset,
        ih hm (acc ++ [(name, info.value)]) hnd2 (hdisj2 info.value),
        List.any_cons, List.map_cons, hmm, Bool.false_or, Bool.false_eq_true,
        if_false, List.append_assoc, List.singleton_append]
    | some t =>
      cases he : t.isEmpty with
      | true =>
        have hmm : specMatchesPrev prev info = false := by
          simp [specMatchesPrev, hty, he]
        simp only [laterStepLoop, hty, he, if_true, hset,
          ih hm (acc ++ [(name, info.value)]) hnd2 (hdisj2 info.value),
          List.any_cons, List.map_cons, hmm, Bool.false_or, Bool.false_eq_true,
          if_false, List.append_assoc, List.singleton_append]
      | false =>
        cases h1 : t == prev.pyTypeStr with
        | true =>
          have hmm : specMatchesPrev prev info = true := by
            simp [specMatchesPrev, hty, he, h1]
          simp only [laterStepLoop, hty, he, h1, Bool.false_eq_true, if_false, if_true,
            hset, ih true (acc ++ [(name, prev)]) hnd2 (hdisj2 prev),
            List.any_cons, List.map_cons, hmm, Bool.true_or, Bool.or_true,
            List.append_assoc, List.singleton_append]
        | false =>
          cases h2 : t.startsWith "List[" && prev.isList with
          | true =>
            have hmm : specMatchesPrev prev info = true := by
              simp [specMatchesPrev, hty, he, h2]
            simp only [laterStepLoop, hty, he, h1, h2, Bool.false_eq_true, if_false,
              if_true, hset, ih true (acc ++ [(name, prev)]) hnd2 (hdisj2 prev),
              List.any_cons, List.map_cons, hmm, Bool.true_or, Bool.or_true,
              List.append_assoc, List.singleton_append]
          | false =>
            cases h3 : t.startsWith "Dict[" && prev.isDict with
            | true =>
              have hmm : specMatchesPrev prev info = true := by
                simp [specMatchesPrev, hty, he, h3]
              simp only [laterStepLoop, hty, he, h1, h2, h3, Bool.false_eq_true,
                if_false, if_true, hset,
                ih true (acc ++ [(name, prev)]) hnd2 (hdisj2 prev),
                List.any_cons, List.map_cons, hmm, Bool.true_or, Bool.or_true,
                List.append_assoc, List.singleton_append]
            | false =>
              have hmm : specMatchesPrev prev info = false := by
                simp [specMatchesPrev, hty, he, h1, h2, h3]
              simp only [laterStepLoop, hty, he, h1, h2, h3, Bool.false_eq_true,
                if_false, hset,
                ih hm (acc ++ [(name, info.value)]) hnd2 (hdisj2 info.value),
                List.any_cons, List.map_cons, hmm, Bool.false_or,
                List.append_assoc, List.singleton_append]

/-- Every key the first-step loop emits is a key of the accumulator or
a declared parameter name. -/
theorem firstStepLoop_keys (l : List (String × ParamInfo))
    (acc : List (String × Value)) (k : String) (v : Value)
    (h : (k, v) ∈ firstStepLoop l acc) :
    (k, v) ∈ acc ∨ ∃ info, (k, info) ∈ l := by
  induction l generalizing acc with
  | nil => exact Or.inl (by simpa [firstStepLoop] using h)
  | cons p rest ih =>
    obtain ⟨name, info⟩ := p
    by_cases hreq : info.is_required = true
    · by_cases htr : info.value.isTruthy = true
      · have h2 : (k, v) ∈ firstStepLoop rest (setItem acc name info.value) := by
          simpa [firstStepLoop, hreq, htr] using h
        rcases ih (setItem acc name info.value) h2 with h3 | h3
        · rcases mem_setItem acc name info.value k v h3 with h4 | h4
          · exact Or.inl h4
          · exact Or.inr ⟨info, h4 ▸ List.mem_cons_self _ _⟩
        · rcases h3 with ⟨info2, h4⟩
          exact Or.inr ⟨info2, List.mem_cons_of_mem _ h4⟩
      · simp only [firstStepLoop, hreq, htr] at h
        simp at h
    · have h2 : (k, v) ∈ firstStepLoop rest acc := by
        simpa [firstStepLoop, hreq] using h
      rcases ih acc h2 with h3 | h3
      · exact Or.inl h3
      · rcases h3 with ⟨info2, h4⟩
        exact Or.inr ⟨info2, List.mem_cons_of_mem _ h4⟩

/-- Every key the later-step loop emits is a key of the accumulator or
a declared parameter name. -/
theorem laterStepLoop_keys (prev : Value) (l : List (String × ParamInfo))
    (hm : Bool) (acc : List (String × Value)) (k : String) (v : Value)
    (h : (k, v) ∈ (laterStepLoop prev l hm acc).2) :
    (k, v) ∈ acc ∨ ∃ info, (k, info) ∈ l := by
  induction l generalizing hm acc with
  | nil => exact Or.inl (by simpa [laterStepLoop] using h)
  | cons p rest ih =>
    obtain ⟨name, info⟩ := p
    have hrec : ∀ (x : Value) (hm2 : Bool),
        (k, v) ∈ (laterStepLoop prev rest hm2 (setItem acc name x)).2 →
        (k, v) ∈ acc ∨ ∃ info2, (k, info2) ∈ (name, info) :: rest := by
      intro x hm2 h2
      rcases ih hm2 (setItem acc name x) h2 with h3 | h3
      · rcases mem_setItem acc name x k v h3 with h4 | h4
        · exact Or.inl h4
        · exact Or.inr ⟨info, h4 ▸ List.mem_cons_self _ _⟩
      · rcases h3 with ⟨info2, h4⟩
        exact Or.inr ⟨info2, List.mem_cons_of_mem _ h4⟩
    cases hty : info.type with
    | none =>
      refine hrec info.value hm ?_
      simp only [laterStepLoop, hty] at h
      exact h
    | some t =>
      by_cases he : t.isEmpty = true
      · exact hrec info.value hm (by simpa [laterStepLoop, hty, he] using h)
      · by_cases h1 : (t == prev.pyTypeStr) = true
        · exact hrec prev true (by simpa [laterStepLoop, hty, he, h1] using h)
        · by_cases h2 : (t.startsWith "List[" && prev.isList) = true
          · exact hrec prev true (by simpa [laterStepLoop, hty, he, h1, h2] using h)
          · by_cases h3 : (t.startsWith "Dict[" && prev.isDict) = true
            · exact hrec prev true
                (by simpa [laterStepLoop, hty, he, h1, h2, h3] using h)
            · exact hrec info.value hm
                (by simpa [laterStepLoop, hty, he, h1, h2, h3] using h)

/-- The argument filter keeps a value exactly when it is neither
`None` nor the empty string. -/
theorem droppedArg_eq_false_iff (v : Value) :
    droppedArg v = false ↔ (v ≠ Value.none ∧ v ≠ Value.str "") := by
  cases v with
  | none => exact ⟨fun h => Bool.noConfusion h, fun h => absurd rfl h.1⟩
  | str s =>
    constructor
    · intro h
      refine ⟨fun h2 => Value.noConfusion h2, fun h2 => ?_⟩
      have hs : s = "" := by injection h2
      rw [hs] at h
      exact Bool.noConfusion h
    · intro h
      have hs : s ≠ "" := fun h3 => h.2 (by rw [h3])
      cases hse : s.isEmpty with
      | false => exact hse
      | true => exact absurd ((String.isEmpty_iff s).mp hse) hs
  | int n =>
    exact ⟨fun _ => ⟨fun h2 => Value.noConfusion h2, fun h2 => Value.noConfusion h2⟩,
           fun _ => rfl⟩
  | bool b =>
    exact ⟨fun _ => ⟨fun h2 => Value.noConfusion h2, fun h2 => Value.noConfusion h2⟩,
           fun _ => rfl⟩
  | list es =>
    exact ⟨fun _ => ⟨fun h2 => Value.noConfusion h2, fun h2 => Value.noConfusion h2⟩,
           fun _ => rfl⟩
  | dict es =>
    exact ⟨fun _ => ⟨fun h2 => Value.noConfusion h2, fun h2 => Value.noConfusion h2⟩,
           fun _ => rfl⟩

/-- Claim C1 (code evidence): with `is_valid == false` and a present
(empty) missing-parameter list on a one-step workflow, the run yields
the FAILED pre-flight event — zero step results, exactly one
MISSING_PARAMETERS error — but the runner does not short-circuit: the
`if` block at module.py:68-91 has no `return`, control falls through
into the step loop, and the run then escapes as
`WorkflowExecutionError` when pydantic rejects the first RUNNING
progress event (module.py:124).  No step is ever executed — the run
does not depend on the invoker — but the consumer receives an
exception after the FAILED event instead of a cleanly terminated
sequence; and when `missing_required_parameters` is `None` (its
declared default) no FAILED event is produced at all, the run raising
from the detail construction at module.py:82. -/
theorem c1_preflight_falls_through_then_aborts :
    execute_workflow invokeOk wfA pvInvalidEmptyMissing =
      ([preflightEvent "wf-A"
          (Value.dict [("missing_parameters", Value.list [])])],
       some ("Failed to execute workflow: "
        ++ executionResultValidationErrorMsg)) ∧
    (∀ invoke : Invoker, execute_workflow invoke wfA pvInvalidEmptyMissing =
      execute_workflow invokeOk wfA pvInvalidEmptyMissing) ∧
    execute_workflow invokeOk wfA pvMissingNone =
      ([], some
        "Failed to execute workflow: TypeError: NoneType object is not iterable") :=
  ⟨rfl, fun _ => rfl, rfl⟩

/-- Claim C2 (code evidence): on the 2-step end-to-end scenario the
program yields zero events, invokes neither capability, and produces
no COMPLETED result: the construction of the first RUNNING progress
event at module.py:124 is rejected by the model of `ExecutionResult`
itself (status Literal, required metrics), the `ValidationError`
escapes through module.py:254-256 as `WorkflowExecutionError` before
the `try` block at module.py:131 is entered, and the run is
independent of the invoker.  (Even absent that, the undeclared
`step.return_type` read at module.py:166 would fail step 1 before
step 2 could run.) -/
theorem c2_run_aborts_before_any_step :
    execute_workflow c2Invoke c2Wf pvValid =
      ([], some ("Failed to execute workflow: "
        ++ executionResultValidationErrorMsg)) ∧
    (∀ invoke : Invoker, execute_workflow invoke c2Wf pvValid =
      execute_workflow c2Invoke c2Wf pvValid) :=
  ⟨rfl, fun _ => rfl⟩

/-- Claim C3 (code evidence): where the fail-fast invariant expects
the failing step 0 of this two-step run (the invoker raises) to be
recorded as the single FAILED entry of `step_results`, the program
records no step result in any event: the run aborts at its first
RUNNING event construction with zero events and an escaping
`WorkflowExecutionError`, and is independent of the invoker — no step
ever executes, so the fail-fast bookkeeping at module.py:182-217 is
unreachable. -/
theorem c3_no_step_result_is_ever_recorded :
    execute_workflow invokeBoom wfB pvValid =
      ([], some ("Failed to execute workflow: "
        ++ executionResultValidationErrorMsg)) ∧
    (∀ invoke : Invoker, execute_workflow invoke wfB pvValid =
      execute_workflow invokeBoom wfB pvValid) :=
  ⟨rfl, fun _ => rfl⟩

/-- Counterexample to claim C4 as stated: a first step whose single
parameter is optional (not marked required) and carries the literal
value "hello" resolves to the empty map, not to the map binding
"param" to "hello" — the resolver copies only required parameters
(module.py:284-285). -/
theorem c4_counterexample :
    prepare_step_parameters stepOptHello initContext 0 = [] ∧
    prepare_step_parameters stepOptHello initContext 0
      ≠ [("param", Value.str "hello")] := by
  refine ⟨rfl, ?_⟩
  intro h
  have h2 : ([] : List (String × Value)) = [("param", Value.str "hello")] := h
  exact List.noConfusion h2

/-- Claim C4 as amended: at step index 0 (parameter names distinct, as
Python dict keys are), if any required parameter has a falsy literal
value the resolver returns the empty map; otherwise it returns exactly
the required parameters bound to their literal values, in declaration
order — optional parameters are not copied. -/
theorem c4_first_step_required_only (step : WorkflowStep) (context : ExecContext)
    (hnd : ((step.parameters.getD []).map Prod.fst).Nodup) :
    prepare_step_parameters step context 0 =
      specFirstStepResolution step.parameters := by
  cases hl : step.parameters.getD [] with
  | nil => simp [prepare_step_parameters, specFirstStepResolution, hl]
  | cons p ps =>
    have hfl := firstStepLoop_eq (p :: ps) [] (hl ▸ hnd)
      (by intro a ha q hq; exact absurd hq (List.not_mem_nil _))
    simp [prepare_step_parameters, specFirstStepResolution, hl, hfl]
    rw [hl]
    simp [List.any_cons]

/-- Witness for the amended claim C4 at a concrete input: the
single-required-parameter step with literal value "hello". -/
theorem c4_first_step_required_only_witness :
    prepare_step_parameters stepReqHello initContext 0 =
      specFirstStepResolution stepReqHello.parameters :=
  c4_first_step_required_only stepReqHello initContext (by decide)

/-- Claim C5: at every step index other than 0 (parameter names
distinct), the resolver behaves exactly as the spec-side rule
`specLaterStepResolution`: parameters whose type tag matches the
previous output (exact runtime-type match, or a `List[`-tag against a
list, or a `Dict[`-tag against a dict) are bound to the previous
output as-is, the others fall back to their literal value, and if no
parameter matches the result is the empty map. -/
theorem c5_later_step_binding (step : WorkflowStep) (context : ExecContext)
    (step_index : Nat) (hsi : step_index ≠ 0)
    (hnd : ((step.parameters.getD []).map Prod.fst).Nodup) :
    prepare_step_parameters step context step_index =
      specLaterStepResolution step.parameters context.previous_step_output := by
  have hsi2 : (step_index == 0) = false := by
    cases step_index with
    | zero => exact absurd rfl hsi
    | succ n => rfl
  cases hl : step.parameters.getD [] with
  | nil => simp [prepare_step_parameters, specLaterStepResolution, hl]
  | cons p ps =>
    have hll := laterStepLoop_eq context.previous_step_output (p :: ps) false []
      (hl ▸ hnd) (by intro a ha q hq; exact absurd hq (List.not_mem_nil _))
    simp only [prepare_step_parameters, specLaterStepResolution, hl, hsi2,
      List.isEmpty_cons, Bool.false_eq_true, if_false, hll, Bool.false_or,
      List.nil_append]
    cases hany : (p :: ps).any
        (fun q => specMatchesPrev context.previous_step_output q.2) with
    | true => simp
    | false => simp

/-- Witness for claim C5 at a concrete input: the type-tag binding
example — a parameter declared `List[string]` with no literal value,
previous output the two-element list of strings. -/
theorem c5_later_step_binding_witness :
    prepare_step_parameters stepSeqBind ctxSeqAB 1 =
      specLaterStepResolution stepSeqBind.parameters ctxSeqAB.previous_step_output :=
  c5_later_step_binding stepSeqBind ctxSeqAB 1 (by decide) (by decide)

/-- Claim C6 (code evidence): the first step of this workflow has an
empty binding resolution, yet the run records no FAILED StepResult
for it — it records nothing at all: the `ValidationError` of the
RUNNING event at module.py:124 precedes the `try` block, so the
Binding Resolver and the Capability Invoker are never consulted (the
run is invoker-independent) and no event is yielded.  Separately, the
loop body at module.py:131-140 contains no empty-map check, so even
were it reachable the empty map would be passed straight to
`_execute_step`, whose filter leaves it empty. -/
theorem c6_empty_resolution_step_never_reached :
    prepare_step_parameters stepOptHello initContext 0 = [] ∧
    execute_workflow invokeProbe wfOpt pvValid =
      ([], some ("Failed to execute workflow: "
        ++ executionResultValidationErrorMsg)) ∧
    (∀ invoke : Invoker, execute_workflow invoke wfOpt pvValid =
      execute_workflow invokeProbe wfOpt pvValid) ∧
    stepArgs [] = [] :=
  ⟨rfl, rfl, fun _ => rfl, rfl⟩

/-- Claim C7: the Capability Invoker drops exactly the argument
entries whose value is `None` or the empty string, keeps every other
entry unchanged and in order (the filtered list is a sublist of the
input), and on the concrete example a-x, b-empty, c-None it calls the
operation with only a-x. -/
theorem c7_argument_filter :
    (∀ (parameters : List (String × Value)) (k : String) (v : Value),
      ((k, v) ∈ stepArgs parameters ↔
        ((k, v) ∈ parameters ∧ v ≠ Value.none ∧ v ≠ Value.str ""))) ∧
    (∀ parameters : List (String × Value), (stepArgs parameters).Sublist parameters) ∧
    stepArgs [("a", Value.str "x"), ("b", Value.str ""), ("c", Value.none)]
      = [("a", Value.str "x")] := by
  refine ⟨?_, ?_, rfl⟩
  · intro parameters k v
    unfold stepArgs
    rw [List.mem_filter]
    constructor
    · rintro ⟨h1, h2⟩
      refine ⟨h1, ?_⟩
      dsimp only at h2
      have h3 : droppedArg v = false := by
        cases hd : droppedArg v with
        | false => rfl
        | true => rw [hd] at h2; exact Bool.noConfusion h2
      exact (droppedArg_eq_false_iff v).mp h3
    · rintro ⟨h1, h2⟩
      refine ⟨h1, ?_⟩
      show (!droppedArg v) = true
      rw [(droppedArg_eq_false_iff v).mpr h2]
      rfl
  · intro parameters
    exact List.filter_sublist _

/-- Claim C8 (code evidence): the Runner lets an error escape on
every run.  With non-empty steps and a valid pre-condition the run
yields zero events and escapes with `WorkflowExecutionError` wrapping
the pydantic `ValidationError` of its own first RUNNING event; with
`is_valid` false and a present missing list the pre-flight FAILED
event is yielded and the run still escapes the same way, so the last
emitted event is the pre-flight event, not a final summary; and with
the missing list left at its declared default `None` even the
pre-flight event construction raises (TypeError at module.py:82).  No
run emits a final `ExecutionResult`. -/
theorem c8_every_run_escapes_uncaught :
    execute_workflow invokeOk wfA pvValid =
      ([], some ("Failed to execute workflow: "
        ++ executionResultValidationErrorMsg)) ∧
    execute_workflow invokeOk wfA pvInvalidEmptyMissing =
      ([preflightEvent "wf-A"
          (Value.dict [("missing_parameters", Value.list [])])],
       some ("Failed to execute workflow: "
        ++ executionResultValidationErrorMsg)) ∧
    execute_workflow invokeOk wfA pvMissingNone =
      ([], some
        "Failed to execute workflow: TypeError: NoneType object is not iterable") :=
  ⟨rfl, rfl, rfl⟩

/-- Claim C9: the Binding Resolver is deterministic — identical
`(step, context, step_index)` inputs give identical argument maps; the
embedded `_prepare_step_parameters` reads nothing but its arguments
(no `self` state beyond the logger), so this is function application
congruence. -/
theorem c9_binding_resolver_deterministic (s1 s2 : WorkflowStep)
    (ctx1 ctx2 : ExecContext) (i1 i2 : Nat)
    (hs : s1 = s2) (hc : ctx1 = ctx2) (hi : i1 = i2) :
    prepare_step_parameters s1 ctx1 i1 = prepare_step_parameters s2 ctx2 i2 := by
  rw [hs, hc, hi]

/-- Witness for claim C9 at a concrete input. -/
theorem c9_binding_resolver_deterministic_witness :
    prepare_step_parameters stepReqHello initContext 0 =
      prepare_step_parameters stepReqHello initContext 0 :=
  c9_binding_resolver_deterministic stepReqHello stepReqHello initContext initContext
    0 0 rfl rfl rfl

/-- Claim C10: every key of the argument map returned by the Binding
Resolver is a declared parameter name of the step — resolution never
invents an argument. -/
theorem c10_no_invented_arguments (step : WorkflowStep) (context : ExecContext)
    (step_index : Nat) (k : String) (v : Value)
    (hmem : (k, v) ∈ prepare_step_parameters step context step_index) :
    ∃ info, (k, info) ∈ step.parameters.getD [] := by
  unfold prepare_step_parameters at hmem
  dsimp only at hmem
  by_cases he : (step.parameters.getD []).isEmpty = true
  · rw [if_pos he] at hmem
    exact absurd hmem (List.not_mem_nil _)
  · rw [if_neg he] at hmem
    by_cases h0 : (step_index == 0) = true
    · rw [if_pos h0] at hmem
      rcases firstStepLoop_keys _ _ k v hmem with h | h
      · exact absurd h (List.not_mem_nil _)
      · exact h
    · rw [if_neg h0] at hmem
      by_cases hm2 : (!(laterStepLoop context.previous_step_output
          (step.parameters.getD []) false []).1) = true
      · rw [if_pos hm2] at hmem
        exact absurd hmem (List.not_mem_nil _)
      · rw [if_neg hm2] at hmem
        rcases laterStepLoop_keys _ _ _ _ k v hmem with h | h
        · exact absurd h (List.not_mem_nil _)
        · exact h

/-- Witness for claim C10 at a concrete input: the only key the
resolver returns for the single-required-parameter step is its
declared name. -/
theorem c10_no_invented_arguments_witness :
    ∃ info, ("param", info) ∈ stepReqHello.parameters.getD [] :=
  c10_no_invented_arguments stepReqHello initContext 0 "param" (Value.str "hello")
    (List.mem_singleton.mpr rfl)
